import Mathlib

set_option linter.unusedVariables false
set_option maxRecDepth 100000

/-!
Verification development for the Fast Mode Lite document-analysis engine
(`app.py`).  The Python source is shallowly embedded below: page texts are
`String`s (a possibly-`None` page text is `Option String`), Python floats
are modelled as exact rationals (`Rat`), dates as year/month/day triples
with lexicographic order, and the fixed regular expressions of the source
are modelled by a small matcher (`RAtom`, `dropSeqCI`, `searchRA`, and the
dedicated numeric matchers) that reproduces the Python `re` semantics on
the pattern shapes the source uses (case-insensitive literals, `\b`,
`\s*`, `\s+`, lazy bounded gaps `.{0,n}?`, and the two numeric captures).
-/

/-! ## Character helpers (semantics of the `re` classes used by the source) -/

/-- Python `\w` on the ASCII texts handled here: letters, digits, underscore. -/
def isWordChar (c : Char) : Bool := c.isAlphanum || c == '_'

/-- Python `\s`: space, tab, newline, carriage return, vertical tab, form feed. -/
def isPySpace (c : Char) : Bool :=
  c == ' ' || c.toNat == 9 || c.toNat == 10 || c.toNat == 13 || c.toNat == 11 || c.toNat == 12

/-- Python `\b`: boundary between a word character and a non-word character
(text edges count as non-word). -/
def atBoundary (prev next : Option Char) : Bool :=
  (match prev with | some c => isWordChar c | none => false) !=
  (match next with | some c => isWordChar c | none => false)

/-- Case-insensitive literal match at the head of `cs`; returns the rest. -/
def dropLitCI : List Char → List Char → Option (List Char)
  | [], cs => some cs
  | _ :: _, [] => none
  | l :: ls, c :: cs => if c.toLower == l.toLower then dropLitCI ls cs else none

/-- Last character of a literal (used to track the previous character for `\b`;
case does not change word-character status, so the pattern character works). -/
def litLast (s : String) (prev : Option Char) : Option Char :=
  match s.toList.getLast? with
  | some c => some c
  | none => prev

/-- Consume a maximal run of `\s` characters, tracking the previous character. -/
def skipSpaces : Option Char → List Char → Option Char × List Char
  | prev, [] => (prev, [])
  | prev, c :: rest => if isPySpace c then skipSpaces (some c) rest else (prev, c :: rest)

/-! ## Boolean regex fragments

An atom sequence models one of the source's search regexes.  In every
pattern of the source, `\s*`/`\s+` is followed by a literal that starts
with a non-space character, so the maximal-munch treatment of the space
classes below coincides with the Python engine's backtracking result. -/

inductive RAtom where
  /-- literal text, matched case-insensitively (`re.IGNORECASE`) -/
  | lit (s : String)
  /-- `\b` -/
  | wb
  /-- `\s*` -/
  | ws0
  /-- `\s+` -/
  | ws1
deriving Repr, DecidableEq

/-- Match an atom sequence at the current position; `prev` is the character
just before the position (for `\b`).  Returns the final position on success. -/
def dropSeqCI : List RAtom → Option Char → List Char → Option (Option Char × List Char)
  | [], prev, cs => some (prev, cs)
  | .wb :: as, prev, cs =>
    if atBoundary prev cs.head? then dropSeqCI as prev cs else none
  | .lit s :: as, prev, cs =>
    match dropLitCI s.toList cs with
    | some rest => dropSeqCI as (litLast s prev) rest
    | none => none
  | .ws0 :: as, prev, cs =>
    let p := skipSpaces prev cs
    dropSeqCI as p.1 p.2
  | .ws1 :: as, _prev, cs =>
    match cs with
    | [] => none
    | c :: rest =>
      if isPySpace c then
        let p := skipSpaces (some c) rest
        dropSeqCI as p.1 p.2
      else none

/-- `re.search` for an atom sequence: try every start position, left to right. -/
def searchFrom (pat : List RAtom) : Option Char → List Char → Bool
  | prev, cs =>
    (dropSeqCI pat prev cs).isSome ||
    (match cs with
     | [] => false
     | c :: rest => searchFrom pat (some c) rest)

/-- Boolean `re.search(pattern, text)` for one of the source's regexes. -/
def searchRA (pat : List RAtom) (text : String) : Bool :=
  searchFrom pat none text.toList

/-! ## Numeric captures

`parse_rate` uses `\b([0-9]{1,2}\.[0-9]{2,3})\s*%\b`; the labelled-rate
search in `extract_terms_from_pages` uses
`(interest rate|note rate).{0,60}?([0-9]{1,2}\.[0-9]{2,3})\s*%`; and
`find_labeled_amount` appends `.{0,80}?\$?\s*([0-9]{1,3}(?:,[0-9]{3})*(?:\.[0-9]{2})?)`
to a label alternation.  The matchers below reproduce the Python engine's
leftmost-match and quantifier-preference behaviour for these patterns. -/

/-- Maximal run of ASCII digits at the head of a character list. -/
def takeDigits : List Char → List Char × List Char
  | [] => ([], [])
  | c :: rest =>
    if c.isDigit then
      let p := takeDigits rest
      (c :: p.1, p.2)
    else ([], c :: rest)

def digitsToNat (ds : List Char) : Nat :=
  ds.foldl (fun a c => a * 10 + (c.toNat - 48)) 0

/-- `\s*%`: skip spaces, require `%`; returns the rest after the `%`. -/
def rateTailOk (after : List Char) : Option (List Char) :=
  match (skipSpaces none after).2 with
  | '%' :: r => some r
  | _ => none

/-- One fraction-length alternative of `([0-9]{1,2}\.[0-9]{2,3})\s*%`:
exactly `j` fraction digits followed by `\s*%`. -/
def rateFracTry (ipart : List Char) (afterDot : List Char) (j : Nat) : Option (Rat × List Char) :=
  let f := takeDigits afterDot
  if f.1.length < j then none
  else
    match rateTailOk (afterDot.drop j) with
    | some r =>
      some (mkRat (digitsToNat ipart * 10 ^ j + digitsToNat (f.1.take j)) (10 ^ j), r)
    | none => none

/-- `([0-9]{1,2}\.[0-9]{2,3})\s*%` anchored at the current position: greedy
integer part (at most 2 digits; a third digit makes the `\.` fail for every
backtrack, so the run length must be 1 or 2), then `.`, then 3 fraction
digits preferred over 2, then `\s*%`.  Returns the captured value and the
rest after the `%`. -/
def rateGroupAt (cs : List Char) : Option (Rat × List Char) :=
  let d := takeDigits cs
  if d.1.length = 0 || 2 < d.1.length then none
  else
    match d.2 with
    | '.' :: afterDot =>
      (match rateFracTry d.1 afterDot 3 with
       | some v => some v
       | none => rateFracTry d.1 afterDot 2)
    | _ => none

def isWordCharHead (cs : List Char) : Bool :=
  match cs with
  | c :: _ => isWordChar c
  | [] => false

/-- Scan of `\b([0-9]{1,2}\.[0-9]{2,3})\s*%\b`: at each position require the
leading boundary, the rate group, and the trailing boundary (after `%`, a
non-word character, the boundary holds exactly when a word character
follows). -/
def parseRateFrom : Option Char → List Char → Option Rat
  | prev, cs =>
    match
      (if atBoundary prev cs.head? then
        match rateGroupAt cs with
        | some (v, rest) => if isWordCharHead rest then some v else none
        | none => none
      else none) with
    | some v => some v
    | none =>
      match cs with
      | [] => none
      | c :: rest => parseRateFrom (some c) rest

/-- `parse_rate` (app.py): first match of `\b([0-9]{1,2}\.[0-9]{2,3})\s*%\b`,
converted to a number. -/
def parse_rate (text : String) : Option Rat :=
  parseRateFrom none text.toList

/-- Lazy gap `.{0,60}?`/`.{0,80}?` before the rate group: try the group at
the current position, else consume one non-newline gap character (`.` does
not match a newline) while budget remains. -/
def rateAfterGap : Nat → List Char → Option Rat
  | k, cs =>
    match rateGroupAt cs with
    | some (v, _) => some v
    | none =>
      match k, cs with
      | kk + 1, c :: rest => if c == '\n' then none else rateAfterGap kk rest
      | _, _ => none

/-- `(interest rate|note rate).{0,60}?([0-9]{1,2}\.[0-9]{2,3})\s*%` anchored
at the current position (the two alternatives start with different letters,
so they never both match at one position). -/
def labeledRateHere (cs : List Char) : Option Rat :=
  match dropLitCI "interest rate".toList cs with
  | some rest => rateAfterGap 60 rest
  | none =>
    match dropLitCI "note rate".toList cs with
    | some rest => rateAfterGap 60 rest
    | none => none

/-- First (leftmost) labelled-rate match of the document text. -/
def extractLabeledRateFrom : List Char → Option Rat
  | [] => labeledRateHere []
  | c :: rest =>
    match labeledRateHere (c :: rest) with
    | some v => some v
    | none => extractLabeledRateFrom rest

/-- The comma groups `(?:,[0-9]{3})*` (greedy: a comma followed by exactly
three digits, repeated). -/
def moneyCommas : Nat → List Char → Nat × List Char
  | acc, ',' :: c1 :: c2 :: c3 :: rest =>
    if c1.isDigit && c2.isDigit && c3.isDigit then
      moneyCommas (acc * 1000 + digitsToNat [c1, c2, c3]) rest
    else (acc, ',' :: c1 :: c2 :: c3 :: rest)
  | acc, cs => (acc, cs)

/-- `([0-9]{1,3}(?:,[0-9]{3})*(?:\.[0-9]{2})?)` anchored at the current
position; the value is the captured text with commas removed, as in
`float(m.group(1).replace(",", ""))`. -/
def moneyGroupAt (cs : List Char) : Option Rat :=
  let d := takeDigits cs
  if d.1.isEmpty then none
  else
    let ip := d.1.take 3
    let rest0 := d.1.drop 3 ++ d.2
    let p := moneyCommas (digitsToNat ip) rest0
    let frac : Option Nat :=
      match p.2 with
      | '.' :: a :: b :: _ => if a.isDigit && b.isDigit then some (digitsToNat [a, b]) else none
      | _ => none
    match frac with
    | some f => some (mkRat (p.1 * 100 + f) 100)
    | none => some (mkRat p.1 1)

/-- `\$?\s*` then the money group, anchored at the current position. -/
def moneyAt (cs : List Char) : Option Rat :=
  let cs1 := match cs with | '$' :: r => r | _ => cs
  moneyGroupAt (skipSpaces none cs1).2

/-- Lazy gap `.{0,80}?` before `\$?\s*(amount)`. -/
def moneyAfterGap : Nat → List Char → Option Rat
  | k, cs =>
    match moneyAt cs with
    | some v => some v
    | none =>
      match k, cs with
      | kk + 1, c :: rest => if c == '\n' then none else moneyAfterGap kk rest
      | _, _ => none

/-- One label pattern of `find_labeled_amount` (an alternation of atom
sequences) followed by `.{0,80}?\$?\s*(amount)`, anchored at the current
position; alternatives are tried in order, as the Python engine does. -/
def labeledAmountHere : List (List RAtom) → List Char → Option Rat
  | [], _ => none
  | alt :: alts, cs =>
    match dropSeqCI alt none cs with
    | some p =>
      (match moneyAfterGap 80 p.2 with
       | some v => some v
       | none => labeledAmountHere alts cs)
    | none => labeledAmountHere alts cs

/-- Leftmost match of one label pattern plus amount. -/
def findLabeledAmountFrom (alts : List (List RAtom)) : List Char → Option Rat
  | [] => labeledAmountHere alts []
  | c :: rest =>
    match labeledAmountHere alts (c :: rest) with
    | some v => some v
    | none => findLabeledAmountFrom alts rest

/-- `find_labeled_amount` (app.py): first amount near any label pattern;
the `float` conversion cannot fail on the digit strings the group matches,
so the `try/except` of the source is not represented. -/
def find_labeled_amount (text : String) (label_patterns : List (List (List RAtom))) : Option Rat :=
  match label_patterns with
  | [] => none
  | lp :: rest =>
    match findLabeledAmountFrom lp text.toList with
    | some v => some v
    | none => find_labeled_amount text rest

/-! ## The source's fixed pattern sets -/

/-- `[r"\bforbear", r"\bcovid", r"\bcares act\b", r"\bpayment pause\b"]` -/
def forbPatterns : List (List RAtom) :=
  [[.wb, .lit "forbear"], [.wb, .lit "covid"], [.wb, .lit "cares act", .wb],
   [.wb, .lit "payment pause", .wb]]

/-- `[r"\blate fee\b", r"\blate charge\b", r"\bpast due\b", r"\bdelinquen"]` -/
def delinPatterns : List (List RAtom) :=
  [[.wb, .lit "late fee", .wb], [.wb, .lit "late charge", .wb], [.wb, .lit "past due", .wb],
   [.wb, .lit "delinquen"]]

/-- `[r"\bsuspense\b"]` -/
def suspensePatterns : List (List RAtom) := [[.wb, .lit "suspense", .wb]]

/-- `[r"\bVALERI\b", r"\bLoan Guaranty\b", r"\bVeterans Affairs\b", r"\bVA\b"]` -/
def vaPatterns : List (List RAtom) :=
  [[.wb, .lit "VALERI", .wb], [.wb, .lit "Loan Guaranty", .wb], [.wb, .lit "Veterans Affairs", .wb],
   [.wb, .lit "VA", .wb]]

/-- Anchor patterns of `infer_baseline_from_non_mod_docs`:
`[r"principal\s*and\s*interest", r"\bP\s*&\s*I\b", r"\bescrow\b", r"total\s+monthly\s+payment", r"interest rate", r"note rate"]` -/
def baselineAnchorPatterns : List (List RAtom) :=
  [[.lit "principal", .ws0, .lit "and", .ws0, .lit "interest"],
   [.wb, .lit "P", .ws0, .lit "&", .ws0, .lit "I", .wb],
   [.wb, .lit "escrow", .wb],
   [.lit "total", .ws1, .lit "monthly", .ws1, .lit "payment"],
   [.lit "interest rate"], [.lit "note rate"]]

/-- Term patterns of `infer_mod_terms_from_mod_docs`:
`[r"interest rate", r"principal\s*and\s*interest", r"\bescrow\b", r"total\s+monthly\s+payment", r"monthly\s+payment", r"maturity", r"term"]` -/
def modTermPatterns : List (List RAtom) :=
  [[.lit "interest rate"],
   [.lit "principal", .ws0, .lit "and", .ws0, .lit "interest"],
   [.wb, .lit "escrow", .wb],
   [.lit "total", .ws1, .lit "monthly", .ws1, .lit "payment"],
   [.lit "monthly", .ws1, .lit "payment"],
   [.lit "maturity"], [.lit "term"]]

/-- Capitalization patterns:
`[r"arrears", r"capitaliz", r"principal balance", r"deferred", r"past due amount"]` -/
def capPatterns : List (List RAtom) :=
  [[.lit "arrears"], [.lit "capitaliz"], [.lit "principal balance"], [.lit "deferred"],
   [.lit "past due amount"]]

/-- P&I label of `extract_terms_from_pages`:
`(principal\s*and\s*interest|P\s*&\s*I|P/I)` -/
def piLabelAlts : List (List RAtom) :=
  [[.lit "principal", .ws0, .lit "and", .ws0, .lit "interest"],
   [.lit "P", .ws0, .lit "&", .ws0, .lit "I"],
   [.lit "P/I"]]

/-- Escrow label: `(escrow)` -/
def escrowLabelAlts : List (List RAtom) := [[.lit "escrow"]]

/-- Total label:
`(total\s+monthly\s+payment|monthly\s+payment|total\s+payment|amount\s+due)` -/
def totalLabelAlts : List (List RAtom) :=
  [[.lit "total", .ws1, .lit "monthly", .ws1, .lit "payment"],
   [.lit "monthly", .ws1, .lit "payment"],
   [.lit "total", .ws1, .lit "payment"],
   [.lit "amount", .ws1, .lit "due"]]

/-! ## Text helpers (app.py "Helpers" section) -/

/-- Python `str.split()`: split on whitespace runs, dropping empty pieces. -/
def pySplitGo : List Char → List Char → List String
  | [], acc => if acc.isEmpty then [] else [String.mk acc.reverse]
  | c :: cs, acc =>
    if isPySpace c then
      (if acc.isEmpty then pySplitGo cs [] else String.mk acc.reverse :: pySplitGo cs [])
    else pySplitGo cs (c :: acc)

def pySplit (s : String) : List String := pySplitGo s.toList []

/-- `normalize_space`: `" ".join((s or "").split())`. -/
def normalize_space (s : String) : String := String.intercalate " " (pySplit s)

/-- `short_quote`: normalize, truncate to `limit` characters, append an
ellipsis when the normalized text was longer. -/
def short_quote (s : String) (limit : Nat) : String :=
  let t := normalize_space s
  String.mk (t.toList.take limit) ++ (if limit < t.toList.length then "…" else "")

/-- Characters removed by `re.sub(r"[“”\"'`]", "", text)` in `locator_phrase`
(left/right curly quotes, double quote, apostrophe, backtick — written by
code point to keep the quoting readable). -/
def isLocatorQuoteChar (c : Char) : Bool :=
  c.toNat == 8220 || c.toNat == 8221 || c.toNat == 34 || c.toNat == 39 || c.toNat == 96

/-- Python `str.lower()` on the ASCII texts handled here, character by
character (`String.toLower` itself is position-based and does not reduce in
the kernel). -/
def pyLower (s : String) : String := String.mk (s.toList.map Char.toLower)

/-- Stop-word set of `locator_phrase`. -/
def locatorStop : List String :=
  ["the", "and", "or", "to", "of", "a", "in", "for", "with", "your", "you", "is", "are",
   "on", "this", "that", "as", "be", "by", "it"]

/-- `locator_phrase`: normalize, strip quote characters, drop stop words,
keep the first `max_words` surviving tokens (fall back to the raw tokens
when filtering leaves fewer than `max_words`). -/
def locator_phrase (excerpt : String) (max_words : Nat) : String :=
  let text := normalize_space excerpt
  let text := String.mk (text.toList.filter (fun c => !isLocatorQuoteChar c))
  let words := pySplit text
  let filtered := words.filter (fun w => !locatorStop.contains (pyLower w))
  let pick := if max_words ≤ filtered.length then filtered else words
  if pick.isEmpty then "" else String.intercalate " " (pick.take max_words)

/-! ## Data model -/

structure EvidenceRef where
  doc_name : String
  page_number : Nat
  quote : String
  search_phrase : String
deriving Repr, DecidableEq, Inhabited

structure ScoreItem where
  id : String
  label : String
  status : String
  what_we_found : String
  why_it_matters : String
  policy_context : String
  evidence : List EvidenceRef
  request_next : List String
deriving Repr, DecidableEq, Inhabited

/-- `datetime.date`, with the lexicographic comparison Python uses. -/
structure Date where
  year : Nat
  month : Nat
  day : Nat
deriving Repr, DecidableEq, Inhabited

/-- Python `d1 <= d2` on dates. -/
def Date.ble (d1 d2 : Date) : Bool :=
  d1.year < d2.year ||
  (d1.year == d2.year && (d1.month < d2.month ||
    (d1.month == d2.month && d1.day ≤ d2.day)))

/-- `CARES_EFFECTIVE = dt.date(2020, 3, 27)` -/
def CARES_EFFECTIVE : Date := ⟨2020, 3, 27⟩

/-- The inferred-terms dictionary `{"rate": ..., "pi": ..., "escrow": ..., "total": ...}`. -/
structure Terms where
  rate : Option Rat
  pi : Option Rat
  escrow : Option Rat
  total : Option Rat
deriving Repr, DecidableEq, Inhabited

/-- A processed document: `(doc_name, doc_type, pages)` as built by the UI loop. -/
abbrev DocText := String × String × List String

/-- `dedupe_evidence` keyed by `(doc_name, page_number, search_phrase)`. -/
def dedupeGo : List EvidenceRef → List (String × Nat × String) → List EvidenceRef
  | [], _ => []
  | e :: rest, seen =>
    let key := (e.doc_name, e.page_number, e.search_phrase)
    if seen.contains key then dedupeGo rest seen
    else e :: dedupeGo rest (key :: seen)

def dedupe_evidence (ev_list : List EvidenceRef) : List EvidenceRef :=
  dedupeGo ev_list []

/-- `policy_blurb`: only the end of the declared window is consulted. -/
def policy_blurb (forb_start forb_end : Date) : String :=
  if Date.ble CARES_EFFECTIVE forb_end then
    "COVID-era relief (CARES Act §4022 and VA COVID circular guidance) generally aimed to prevent avoidable harm during forbearance and required clear documentation of loss-mitigation outcomes. This tool flags outcome patterns (payment↑, rate↑, opaque capitalization) that warrant clarification."
  else
    "This window begins before the CARES Act effective date (3/27/2020). The tool still flags outcome patterns, but early-2020 policy context may differ."

/-! ## Evidence extraction (app.py `find_hits`, `evidence_from_hits`) -/

/-- Whether a page text would satisfy `any(r.search(t) for r in regs)` and
the truthiness guard of `find_hits`. -/
def pageMatches (patterns : List (List RAtom)) (t : Option String) : Bool :=
  match t with
  | none => false
  | some s => !s.isEmpty && patterns.any (fun r => searchRA r s)

/-- The loop of `find_hits`: pages are enumerated from `i`; `cnt` hits were
already collected; after appending a hit the loop breaks once the count
reaches `max_hits`.  A falsy page (`None` or empty) is skipped. -/
def find_hitsGo (patterns : List (List RAtom)) (max_hits : Nat) :
    List (Option String) → Nat → Nat → List (Nat × String)
  | [], _, _ => []
  | t :: rest, i, cnt =>
    match t with
    | none => find_hitsGo patterns max_hits rest (i + 1) cnt
    | some s =>
      if s.isEmpty then find_hitsGo patterns max_hits rest (i + 1) cnt
      else if patterns.any (fun r => searchRA r s) then
        (if max_hits ≤ cnt + 1 then [(i, short_quote s 240)]
         else (i, short_quote s 240) :: find_hitsGo patterns max_hits rest (i + 1) (cnt + 1))
      else find_hitsGo patterns max_hits rest (i + 1) cnt

/-- `find_hits` (app.py): 1-indexed pages, whole-page quote snippet,
bounded by `max_hits`. -/
def find_hits (pages : List (Option String)) (patterns : List (List RAtom))
    (max_hits : Nat) : List (Nat × String) :=
  find_hitsGo patterns max_hits pages 1 0

/-- `evidence_from_hits` (app.py). -/
def evidence_from_hits (doc_name : String) (hits : List (Nat × String)) : List EvidenceRef :=
  hits.map (fun h =>
    { doc_name := doc_name
      page_number := h.1
      quote := short_quote h.2 180
      search_phrase := locator_phrase h.2 7 })

/-! ## Document classification (app.py `classify_doc`) -/

def modKeywords : List String :=
  ["loan modification", "modification agreement", "change in terms",
   "effective date of this modification"]

def payHistKeywords : List String :=
  ["payment history", "transaction history", "payment ledger"]

def billingKeywords : List String :=
  ["amount due", "billing statement", "late charge", "past due", "internet reprint"]

def startsWithChars : List Char → List Char → Bool
  | [], _ => true
  | _ :: _, [] => false
  | a :: as, b :: bs => a == b && startsWithChars as bs

/-- Substring scan: `needle` occurs at some position of the haystack. -/
def containsGo (needle : List Char) : List Char → Bool
  | [] => needle.isEmpty
  | c :: rest => startsWithChars needle (c :: rest) || containsGo needle rest

/-- Python `k in blob` (substring containment). -/
def strContains (blob k : String) : Bool :=
  containsGo k.toList blob.toList

/-- The lowercased blob of the first 10 pages, `"\n".join(pages[:10]).lower()`. -/
def classifyBlob (pages : List String) : String :=
  pyLower (String.intercalate "\n" (pages.take 10))

/-- `classify_doc` (app.py): keyword groups tried in a fixed priority order,
first match wins, default OTHER. -/
def classify_doc (pages : List String) : String :=
  let blob := classifyBlob pages
  if modKeywords.any (fun k => strContains blob k) then "MODIFICATION"
  else if payHistKeywords.any (fun k => strContains blob k) then "PAYMENT_HISTORY"
  else if strContains blob "escrow" && strContains blob "analysis" then "ESCROW"
  else if billingKeywords.any (fun k => strContains blob k) then "BILLING"
  else "OTHER"

/-! ## Term inference (app.py `extract_terms_from_pages`, `infer_*`) -/

/-- `extract_terms_from_pages` (app.py): concatenate the pages, prefer a
labelled rate, fall back to `parse_rate`, and extract the three labelled
amounts independently. -/
def extract_terms_from_pages (pages : List String) : Terms :=
  let txt := String.intercalate "\n" pages
  let rate :=
    match extractLabeledRateFrom txt.toList with
    | some r => some r
    | none => parse_rate txt
  { rate := rate
    pi := find_labeled_amount txt [piLabelAlts]
    escrow := find_labeled_amount txt [escrowLabelAlts]
    total := find_labeled_amount txt [totalLabelAlts] }

/-- The merge loop `for k in [...]: if baseline[k] is None and terms[k] is not None: baseline[k] = terms[k]`. -/
def mergeTerms (b t : Terms) : Terms :=
  { rate := match b.rate with | some v => some v | none => t.rate
    pi := match b.pi with | some v => some v | none => t.pi
    escrow := match b.escrow with | some v => some v | none => t.escrow
    total := match b.total with | some v => some v | none => t.total }

/-- The early-exit test `pi is not None and total is not None and rate is not None`. -/
def termsComplete (t : Terms) : Bool :=
  t.pi.isSome && t.total.isSome && t.rate.isSome

/-- Inner document loop of `infer_baseline_from_non_mod_docs` for one
preferred type; the `Bool` records whether the early `return` fired. -/
def inferBaselineScan (target : String) :
    List DocText → Terms → List EvidenceRef → Terms × List EvidenceRef × Bool
  | [], b, ev => (b, ev, false)
  | (doc_name, doc_type, pages) :: rest, b, ev =>
    if doc_type ≠ target then inferBaselineScan target rest b ev
    else
      let hits := find_hits (pages.map (fun p => some p)) baselineAnchorPatterns 2
      let ev2 := if hits.isEmpty then ev else ev ++ evidence_from_hits doc_name hits
      let b2 := mergeTerms b (extract_terms_from_pages pages)
      if termsComplete b2 then (b2, ev2, true)
      else inferBaselineScan target rest b2 ev2

/-- Outer loop over the preferred types `BILLING, PAYMENT_HISTORY, ESCROW, OTHER`. -/
def inferBaselineTypes : List String → List DocText → Terms → List EvidenceRef →
    Terms × List EvidenceRef
  | [], _, b, ev => (b, ev)
  | t :: ts, docs, b, ev =>
    match inferBaselineScan t docs b ev with
    | (b2, ev2, true) => (b2, ev2)
    | (b2, ev2, false) => inferBaselineTypes ts docs b2 ev2

/-- `infer_baseline_from_non_mod_docs` (app.py). -/
def infer_baseline_from_non_mod_docs (docs_text : List DocText) : Terms × List EvidenceRef :=
  let r := inferBaselineTypes ["BILLING", "PAYMENT_HISTORY", "ESCROW", "OTHER"] docs_text
    ⟨none, none, none, none⟩ []
  (r.1, dedupe_evidence r.2)

/-- Document loop of `infer_mod_terms_from_mod_docs` (with the `break` once
rate, P&I and total are all populated). -/
def inferModScan : List DocText → Terms → List EvidenceRef → List EvidenceRef →
    Terms × List EvidenceRef × List EvidenceRef
  | [], nt, tev, cev => (nt, tev, cev)
  | (doc_name, doc_type, pages) :: rest, nt, tev, cev =>
    if doc_type ≠ "MODIFICATION" then inferModScan rest nt tev cev
    else
      let term_hits := find_hits (pages.map (fun p => some p)) modTermPatterns 3
      let tev2 := tev ++ evidence_from_hits doc_name term_hits
      let cap_hits := find_hits (pages.map (fun p => some p)) capPatterns 2
      let cev2 := cev ++ evidence_from_hits doc_name cap_hits
      let nt2 := mergeTerms nt (extract_terms_from_pages pages)
      if termsComplete nt2 then (nt2, tev2, cev2)
      else inferModScan rest nt2 tev2 cev2

/-- `infer_mod_terms_from_mod_docs` (app.py). -/
def infer_mod_terms_from_mod_docs (docs_text : List DocText) :
    Terms × List EvidenceRef × List EvidenceRef :=
  let r := inferModScan docs_text ⟨none, none, none, none⟩ [] []
  (r.1, dedupe_evidence r.2.1, dedupe_evidence r.2.2)

/-! ## Number formatting for the item texts

The found-messages interpolate Python floats (`f"{x}"`, `f"{x:.2f}"`).
The rationals produced by the matchers have at most three decimal places,
so the plain rendering drops trailing zeros down to one decimal digit and
the money rendering keeps exactly two. -/

def dropTrailingZeroChars : List Char → List Char
  | [] => []
  | c :: rest =>
    match dropTrailingZeroChars rest with
    | [] => if c == '0' then [] else [c]
    | r => c :: r

/-- `f"{x}"` for the non-negative rate values the matchers produce
(`⌊q·1000⌋` computed by integer floor division, since this toolchain's
rational multiplication is irreducible). -/
def fmtFloat (q : Rat) : String :=
  let n := (Int.fdiv (q.num * 1000) (q.den : Int)).toNat
  let ip := n / 1000
  let fp := n % 1000
  let padded := (if fp < 100 then "0" else "") ++ (if fp < 10 then "0" else "") ++ toString fp
  let fs := match dropTrailingZeroChars padded.toList with
    | [] => "0"
    | l => String.mk l
  toString ip ++ "." ++ fs

/-- `f"{x}"` on an optional value (`None` prints as `None`). -/
def fmtOptFloat (q : Option Rat) : String :=
  match q with
  | none => "None"
  | some v => fmtFloat v

/-- `f"{x:.2f}"` for the non-negative money values the matchers produce
(cent-exact values, so no rounding-mode subtleties arise). -/
def fmtMoney (q : Rat) : String :=
  let n := (Int.fdiv (q.num * 100) (q.den : Int)).toNat
  toString (n / 100) ++ "." ++ (if n % 100 < 10 then "0" else "") ++ toString (n % 100)

/-! ## Scorecard items (app.py `build_scorecard`, S1..S7) -/

/-- S1: COVID forbearance/relief documented. -/
def s1Item (forb_ev : List EvidenceRef) (policy_note : String) : ScoreItem :=
  if !forb_ev.isEmpty then
    { id := "S1"
      label := "COVID forbearance/relief is documented"
      status := "EVIDENCE FOUND"
      what_we_found := "We found COVID/forbearance-related language in your documents."
      why_it_matters := "Relief must be documented to evaluate protected treatment and downstream actions."
      policy_context := policy_note
      evidence := forb_ev.take 4
      request_next := [] }
  else
    { id := "S1"
      label := "COVID forbearance/relief is documented"
      status := "MISSING"
      what_we_found := "We did not find clear COVID forbearance documentation in the text we could read."
      why_it_matters := "Without the forbearance plan record (start/end dates), it is harder to prove protected status and reconcile servicing."
      policy_context := policy_note
      evidence := []
      request_next :=
        ["Request the complete COVID forbearance plan record and system notes (start/end dates).",
         "Request any forbearance approval/confirmation letters or portal messages."] }

/-- S2: protected treatment during forbearance. -/
def s2Item (delin_ev forb_ev : List EvidenceRef) : ScoreItem :=
  if !delin_ev.isEmpty && !forb_ev.isEmpty then
    { id := "S2"
      label := "Protected treatment during forbearance (no delinquency/late fees during active relief)"
      status := "CONFLICT"
      what_we_found := "We found delinquency/late-fee language and forbearance/COVID language in the documents."
      why_it_matters := "In a COVID relief context, delinquency/fees during active forbearance should be explainable with the plan record and a transaction ledger."
      policy_context := "CARES/VA relief intent: avoid avoidable harm during forbearance; exceptions should be clearly documented and explainable."
      evidence := (delin_ev.take 2 ++ forb_ev.take 2).take 4
      request_next :=
        ["Provide a transaction-level ledger for the forbearance months showing exact payment application and fee assessment.",
         "Explain any delinquency coding and late fees during active forbearance (cite dates)."] }
  else if !delin_ev.isEmpty && forb_ev.isEmpty then
    { id := "S2"
      label := "Protected treatment during forbearance (no delinquency/late fees during active relief)"
      status := "NEEDS CLARIFICATION"
      what_we_found := "We found delinquency/late-fee language, but did not find a clear forbearance record in the text we could read."
      why_it_matters := "We need the forbearance plan record to confirm whether the loan should have been treated as protected at those times."
      policy_context := "Protected-status evaluation requires both forbearance start/end dates and dated servicing events."
      evidence := delin_ev.take 3
      request_next :=
        ["Provide the complete forbearance plan record and system notes (start/end dates).",
         "Provide a transaction-level payment ledger covering the same months."] }
  else
    { id := "S2"
      label := "Protected treatment during forbearance (no delinquency/late fees during active relief)"
      status := "NEEDS CLARIFICATION"
      what_we_found := "We did not find delinquency/late-fee language in the text we could read."
      why_it_matters := "This does not prove it didn’t occur. The servicing ledger is the best source of truth."
      policy_context := "If you suspect delinquency/fees occurred, upload monthly statements for that period or the full payment history/ledger."
      evidence := []
      request_next := [] }

/-- S3: payments applied correctly (suspense). -/
def s3Item (suspense_ev : List EvidenceRef) : ScoreItem :=
  if !suspense_ev.isEmpty then
    { id := "S3"
      label := "Payments applied correctly (no suspense trap)"
      status := "CONFLICT"
      what_we_found := "We found 'suspense' references in the documents."
      why_it_matters := "Suspense can indicate payments were held or applied in a non-standard way, creating phantom delinquency."
      policy_context := "During COVID relief, misapplication can create compounding harm. A transaction ledger reconciliation is critical."
      evidence := suspense_ev.take 4
      request_next :=
        ["Provide a transaction-level payment ledger showing application to principal/interest/escrow/suspense.",
         "Provide a suspense reconciliation showing when/why it was created and when it was cleared."] }
  else
    { id := "S3"
      label := "Payments applied correctly (no suspense trap)"
      status := "NEEDS CLARIFICATION"
      what_we_found := "We did not detect suspense language in the text we could read."
      why_it_matters := "This does not prove there was no suspense. Payment history/ledger is the best document to confirm."
      policy_context := "Payment application checks require a transaction ledger for full confidence."
      evidence := []
      request_next := [] }

/-- The truthiness test `any(v is not None for v in terms.values())`. -/
def anyTermPresent (t : Terms) : Bool :=
  t.rate.isSome || t.pi.isSome || t.escrow.isSome || t.total.isSome

/-- S4: inferred baseline terms. -/
def s4Item (baseline : Terms) (baseline_ev : List EvidenceRef) : ScoreItem :=
  if anyTermPresent baseline then
    { id := "S4"
      label := "Pre-mod baseline terms inferred from your documents"
      status := "EVIDENCE FOUND"
      what_we_found := "Inferred baseline (best effort): rate=" ++ fmtOptFloat baseline.rate ++
        "%, P&I=" ++ fmtOptFloat baseline.pi ++ ", escrow=" ++ fmtOptFloat baseline.escrow ++
        ", total=" ++ fmtOptFloat baseline.total ++ "."
      why_it_matters := "Outcome checks (payment↑/rate↑) are strongest when we can compare pre-mod vs post-mod terms from your own documents."
      policy_context := "If baseline terms are wrong/missing, upload a pre-mod statement that clearly shows P&I, escrow, total payment, and rate."
      evidence := baseline_ev.take 4
      request_next := [] }
  else
    { id := "S4"
      label := "Pre-mod baseline terms inferred from your documents"
      status := "MISSING"
      what_we_found := "We could not infer baseline terms (pre-mod payment and rate) from the text we read."
      why_it_matters := "Without baseline terms, the tool cannot reliably prove payment↑ or rate↑ due to the modification."
      policy_context := "Upload a pre-mod statement or note disclosure that shows your prior rate and payment breakdown."
      evidence := []
      request_next :=
        ["Upload a pre-mod monthly statement showing P&I, escrow, and total payment.",
         "Upload any note/closing disclosure page showing the original interest rate (or a statement that shows it)."] }

/-- S5: inferred modification terms. -/
def s5Item (new_terms : Terms) (mod_terms_ev cap_ev : List EvidenceRef) : ScoreItem :=
  if anyTermPresent new_terms || !mod_terms_ev.isEmpty then
    { id := "S5"
      label := "Modification terms detected from your documents"
      status := "EVIDENCE FOUND"
      what_we_found := "Inferred modification terms (best effort): rate=" ++ fmtOptFloat new_terms.rate ++
        "%, P&I=" ++ fmtOptFloat new_terms.pi ++ ", escrow=" ++ fmtOptFloat new_terms.escrow ++
        ", total=" ++ fmtOptFloat new_terms.total ++ "."
      why_it_matters := "We use these terms to run outcome checks (payment↑ / rate↑) in a borrower-protective way."
      policy_context := "If any of these terms look wrong, increase OCR pages or upload the page where new terms are listed clearly."
      evidence := (mod_terms_ev.take 3 ++ cap_ev.take 1).take 4
      request_next := [] }
  else
    { id := "S5"
      label := "Modification terms detected from your documents"
      status := "MISSING"
      what_we_found := "We did not reliably extract modification terms (rate/payment) from the text we could read."
      why_it_matters := "Without the post-mod terms, we cannot evaluate whether the modification worsened payment or rate."
      policy_context := "Upload the signed modification agreement pages that list the new rate, P&I, escrow, total payment, and term/maturity."
      evidence := []
      request_next :=
        ["Upload the page(s) of the modification agreement showing the new interest rate and the new payment breakdown.",
         "Increase OCR pages per document if the modification PDF is scanned."] }

/-! ## The outcome comparator (app.py `build_scorecard`, S6) -/

/-- Rational addition built with `mkRat` (the same value as `Rat.add`, which
this toolchain marks irreducible and which would therefore block kernel
evaluation of the comparator on concrete inputs). -/
def ratAdd (a b : Rat) : Rat :=
  mkRat (a.num * (b.den : Int) + b.num * (a.den : Int)) (a.den * b.den)

/-- The source's rate tolerance `1e-6` (percentage points). -/
def rateEpsilon : Rat := mkRat 1 1000000

/-- The source's money tolerance `0.01` (one cent). -/
def oneCent : Rat := mkRat 1 100

/-- Rate-increase conflict entry: fires when both rates are present and the
new rate exceeds the baseline by more than `1e-6` percentage points. -/
def s6RateConflict (baseline new_terms : Terms) : List String :=
  match baseline.rate, new_terms.rate with
  | some br, some nr =>
    if ratAdd br rateEpsilon < nr then
      ["Interest rate increased (" ++ fmtFloat br ++ "% → " ++ fmtFloat nr ++ "%)."]
    else []
  | _, _ => []

/-- P&I-increase conflict entry: fires when both P&I values are present and
the new one exceeds the baseline by more than one cent. -/
def s6PiConflict (baseline new_terms : Terms) : List String :=
  match baseline.pi, new_terms.pi with
  | some bp, some np =>
    if ratAdd bp oneCent < np then
      ["P&I increased ($" ++ fmtMoney bp ++ " → $" ++ fmtMoney np ++ ")."]
    else []
  | _, _ => []

/-- The `conflicts` list of the outcome comparator. -/
def s6Conflicts (baseline new_terms : Terms) : List String :=
  s6RateConflict baseline new_terms ++ s6PiConflict baseline new_terms

/-- Total-payment entry of the `needs` list: a total-payment increase beyond
one cent — with an escrow-driven message when P&I is known on both sides and
did not increase, and an unclear-breakdown message when P&I is unknown on
either side (the both-present-and-increased case adds nothing here: the P&I
conflict already fired). -/
def s6TotalNeeds (baseline new_terms : Terms) : List String :=
  match baseline.total, new_terms.total with
  | some bt, some nt =>
    if ratAdd bt oneCent < nt then
      (match baseline.pi, new_terms.pi with
       | some bp, some np =>
         if np ≤ ratAdd bp oneCent then
           ["Total payment increased ($" ++ fmtMoney bt ++ " → $" ++ fmtMoney nt ++
            ") but P&I appears unchanged (possible escrow-driven). Needs escrow itemization."]
         else []
       | _, _ =>
         ["Total payment increased ($" ++ fmtMoney bt ++ " → $" ++ fmtMoney nt ++
          ") but P&I breakdown is unclear. Treat as conflict unless escrow-only is documented."])
    else []
  | _, _ => []

/-- Capitalization-transparency entry of the `needs` list. -/
def s6CapNeeds (cap_ev : List EvidenceRef) : List String :=
  if !cap_ev.isEmpty then
    ["Arrears/capitalization appears referenced. Needs itemized arrears/capitalization reconciliation (what was added and why)."]
  else []

/-- The `needs` list of the outcome comparator. -/
def s6Needs (baseline new_terms : Terms) (cap_ev : List EvidenceRef) : List String :=
  s6TotalNeeds baseline new_terms ++ s6CapNeeds cap_ev

/-- Request list of the insufficient-data branch of S6. -/
def s6InsufficientRequests : List String :=
  ["Provide a pre-mod and post-mod statement showing P&I vs escrow vs total payment.",
   "Provide the page listing the new interest rate in the modification agreement.",
   "Provide the arrears/capitalization reconciliation (itemized breakdown)."]

/-- Request list of the comparison branch of S6 (used when the status is
CONFLICT or NEEDS CLARIFICATION). -/
def s6CompareRequests : List String :=
  ["Provide the pre-mod vs post-mod payment comparison used at the time (P&I vs escrow).",
   "Provide the arrears/capitalization reconciliation showing what amounts were rolled in and why.",
   "Provide any option evaluation/waterfall showing what alternatives were considered and why the final option was selected."]

/-- S6: the outcome-based modification check.  The insufficient-data branch
fires when the baseline's rate, P&I and total are all absent, or the new
terms' rate, P&I and total are all absent. -/
def s6Item (baseline new_terms : Terms) (outcome_evidence cap_ev : List EvidenceRef) : ScoreItem :=
  if (baseline.rate.isNone && baseline.pi.isNone && baseline.total.isNone) ||
     (new_terms.rate.isNone && new_terms.pi.isNone && new_terms.total.isNone) then
    { id := "S6"
      label := "Modification outcome check (payment↑ / rate↑ / opaque capitalization)"
      status := "NEEDS CLARIFICATION"
      what_we_found := "We do not have enough extracted baseline and/or modification term data to run a reliable outcome comparison."
      why_it_matters := "A borrower-protective review treats payment↑ or rate↑ during COVID relief as a conflict unless the documents clearly show an escrow-only increase and include itemized calculations."
      policy_context := "Outcome-based rule: payment↑ and/or rate↑ during COVID loss mitigation = conflict unless explicitly justified and documented."
      evidence := outcome_evidence
      request_next := s6InsufficientRequests }
  else
    let conflicts := s6Conflicts baseline new_terms
    let needs := s6Needs baseline new_terms cap_ev
    let status :=
      if !conflicts.isEmpty then "CONFLICT"
      else if !needs.isEmpty then "NEEDS CLARIFICATION"
      else "EVIDENCE FOUND"
    let found :=
      if !conflicts.isEmpty then String.intercalate " / " conflicts
      else if !needs.isEmpty then String.intercalate " / " needs
      else "No obvious payment↑ or rate↑ detected from extracted fields (limited to what we could read)."
    let why :=
      if !conflicts.isEmpty then
        "Borrower-protective rule: payment↑ and/or rate↑ during COVID loss mitigation is treated as a conflict unless the documents explicitly justify it and show clear itemized calculations (including escrow-only exceptions)."
      else if !needs.isEmpty then
        "We need clearer breakdowns (P&I vs escrow) and arrears itemization to determine whether changes were allowable/justified under VA COVID relief framework."
      else
        "This does NOT mean 'compliant.' It means no obvious outcome conflict was detected from extracted terms. Full review still requires complete term pages, arrears itemization, and dated servicing history."
    let req :=
      if status == "CONFLICT" || status == "NEEDS CLARIFICATION" then s6CompareRequests
      else []
    { id := "S6"
      label := "Modification outcome check (payment↑ / rate↑ / opaque capitalization)"
      status := status
      what_we_found := found
      why_it_matters := why
      policy_context := "Outcome-based research rule: payment↑ and/or rate↑ during COVID relief = conflict unless escrow-only and explicitly documented with itemized records."
      evidence := outcome_evidence
      request_next := req }

/-- S7: VA coordination evidence. -/
def s7Item (va_ev : List EvidenceRef) : ScoreItem :=
  if !va_ev.isEmpty then
    { id := "S7"
      label := "Evidence of VA coordination/notification (where applicable)"
      status := "EVIDENCE FOUND"
      what_we_found := "We found VA/Loan Guaranty/VALERI-related references in the uploaded text."
      why_it_matters := "VA coordination evidence helps confirm the official timeline and whether VA processes were followed."
      policy_context := "Absence does not prove non-notification, but it is a research gap. FOIA records can provide VA internal timelines."
      evidence := va_ev.take 4
      request_next := [] }
  else
    { id := "S7"
      label := "Evidence of VA coordination/notification (where applicable)"
      status := "MISSING"
      what_we_found := "We did not find clear VA coordination references in the text we read."
      why_it_matters := "This does not prove VA was not notified; it means your uploaded documents don’t show it, which matters for research and escalation."
      policy_context := "Borrower research: request VA case identifiers or proof of notifications; FOIA records can provide VA internal timelines."
      evidence := []
      request_next :=
        ["Request any VA case identifiers or confirmation of VA notifications (dates/methods) tied to forbearance and loss mitigation.",
         "If you have FOIA records, Deep Mode later can analyze VA internal timelines."] }

/-- Per-document evidence accumulation of `build_scorecard` (the
`ev += evidence_from_hits(...)` loop followed by `dedupe_evidence`). -/
def gatherEvidence (patterns : List (List RAtom)) (max_hits : Nat)
    (docs_text : List DocText) : List EvidenceRef :=
  dedupe_evidence (docs_text.flatMap (fun d =>
    evidence_from_hits d.1 (find_hits (d.2.2.map (fun p => some p)) patterns max_hits)))

/-- `build_scorecard` minus the `policy_blurb` computation: the item list
in emission order S1..S7. -/
def scorecardItems (docs_text : List DocText) (policy_note : String) : List ScoreItem :=
  let forb_ev := gatherEvidence forbPatterns 2 docs_text
  let delin_ev := gatherEvidence delinPatterns 2 docs_text
  let suspense_ev := gatherEvidence suspensePatterns 2 docs_text
  let va_ev := gatherEvidence vaPatterns 2 docs_text
  let bl := infer_baseline_from_non_mod_docs docs_text
  let md := infer_mod_terms_from_mod_docs docs_text
  [s1Item forb_ev policy_note,
   s2Item delin_ev forb_ev,
   s3Item suspense_ev,
   s4Item bl.1 bl.2,
   s5Item md.1 md.2.1 md.2.2,
   s6Item bl.1 md.1 ((md.2.1 ++ bl.2 ++ md.2.2).take 6) md.2.2,
   s7Item va_ev]

/-- `build_scorecard` (app.py): returns the S1..S7 items and the policy note. -/
def build_scorecard (docs_text : List DocText) (forb_start forb_end : Date) :
    List ScoreItem × String :=
  let policy_note := policy_blurb forb_start forb_end
  (scorecardItems docs_text policy_note, policy_note)

/-! ## General lemmas about the evidence pipeline -/

/-- One document matching one of the patterns on a non-falsy page, anywhere
in the upload: the condition under which an evidence bucket is non-empty. -/
def anyDocMatches (patterns : List (List RAtom)) (docs_text : List DocText) : Bool :=
  docs_text.any (fun d => (d.2.2.map (fun p => some p)).any (fun t => pageMatches patterns t))

theorem take_ne_nil_of_ne_nil {α : Type} (l : List α) (n : Nat) (h : l ≠ []) (hn : 0 < n) :
    l.take n ≠ [] := by
  cases l with
  | nil => exact absurd rfl h
  | cons a t => cases n with
    | zero => omega
    | succ m => simp

theorem dedupe_evidence_eq_nil_iff (l : List EvidenceRef) :
    dedupe_evidence l = [] ↔ l = [] := by
  cases l with
  | nil => simp [dedupe_evidence, dedupeGo]
  | cons e rest => simp [dedupe_evidence, dedupeGo]

theorem evidence_from_hits_eq_nil_iff (doc_name : String) (hits : List (Nat × String)) :
    evidence_from_hits doc_name hits = [] ↔ hits = [] := by
  simp [evidence_from_hits]

theorem find_hitsGo_length (patterns : List (List RAtom)) (max_hits : Nat) :
    ∀ (pages : List (Option String)) (i cnt : Nat), cnt < max_hits →
      (find_hitsGo patterns max_hits pages i cnt).length + cnt ≤ max_hits := by
  intro pages
  induction pages with
  | nil => intro i cnt h; simp [find_hitsGo]; omega
  | cons t rest ih =>
    intro i cnt h
    cases t with
    | none => simpa [find_hitsGo] using ih (i + 1) cnt h
    | some s =>
      simp only [find_hitsGo]
      split_ifs with h1 h2 h3
      · exact ih (i + 1) cnt h
      · simp; omega
      · have := ih (i + 1) (cnt + 1) (by omega)
        simp at this ⊢
        omega
      · exact ih (i + 1) cnt h

theorem find_hitsGo_mem (patterns : List (List RAtom)) (max_hits : Nat) :
    ∀ (pages : List (Option String)) (i cnt p : Nat) (q : String),
      (p, q) ∈ find_hitsGo patterns max_hits pages i cnt →
      ∃ j s, pages[j]? = some (some s) ∧ s.isEmpty = false ∧
        patterns.any (fun r => searchRA r s) = true ∧ p = i + j ∧ q = short_quote s 240 := by
  intro pages
  induction pages with
  | nil => intro i cnt p q h; simp [find_hitsGo] at h
  | cons t rest ih =>
    intro i cnt p q h
    cases t with
    | none =>
      simp only [find_hitsGo] at h
      obtain ⟨j, s, hj, hs, hm, hp, hq⟩ := ih (i + 1) cnt p q h
      exact ⟨j + 1, s, by simpa using hj, hs, hm, by omega, hq⟩
    | some s =>
      simp only [find_hitsGo] at h
      split_ifs at h with h1 h2 h3
      · obtain ⟨j, s2, hj, hs, hm, hp, hq⟩ := ih (i + 1) cnt p q h
        exact ⟨j + 1, s2, by simpa using hj, hs, hm, by omega, hq⟩
      · simp at h
        exact ⟨0, s, by simp, by simpa using h1, h2, by omega, h.2⟩
      · rcases List.mem_cons.mp h with h0 | h0
        · have h0' : p = i ∧ q = short_quote s 240 := by
            constructor
            · exact congrArg Prod.fst h0
            · exact congrArg Prod.snd h0
          exact ⟨0, s, by simp, by simpa using h1, h2, by omega, h0'.2⟩
        · obtain ⟨j, s2, hj, hs, hm, hp, hq⟩ := ih (i + 1) (cnt + 1) p q h0
          exact ⟨j + 1, s2, by simpa using hj, hs, hm, by omega, hq⟩
      · obtain ⟨j, s2, hj, hs, hm, hp, hq⟩ := ih (i + 1) cnt p q h
        exact ⟨j + 1, s2, by simpa using hj, hs, hm, by omega, hq⟩

theorem find_hitsGo_eq_nil (patterns : List (List RAtom)) (max_hits : Nat) :
    ∀ (pages : List (Option String)) (i cnt : Nat),
      (∀ t ∈ pages, pageMatches patterns t = false) →
      find_hitsGo patterns max_hits pages i cnt = [] := by
  intro pages
  induction pages with
  | nil => intro i cnt h; simp [find_hitsGo]
  | cons t rest ih =>
    intro i cnt h
    have hrest : ∀ u ∈ rest, pageMatches patterns u = false := fun u hu => h u (by simp [hu])
    have ht : pageMatches patterns t = false := h t (by simp)
    cases t with
    | none => simpa [find_hitsGo] using ih (i + 1) cnt hrest
    | some s =>
      simp only [find_hitsGo]
      split_ifs with h1 h2
      · exact ih (i + 1) cnt hrest
      · exfalso
        simp [pageMatches, h1, h2] at ht
      · exfalso
        simp [pageMatches, h1, h2] at ht
      · exact ih (i + 1) cnt hrest

theorem find_hitsGo_ne_nil (patterns : List (List RAtom)) (max_hits : Nat) :
    ∀ (pages : List (Option String)) (i cnt : Nat),
      pages.any (fun t => pageMatches patterns t) = true →
      find_hitsGo patterns max_hits pages i cnt ≠ [] := by
  intro pages
  induction pages with
  | nil => intro i cnt h; simp at h
  | cons t rest ih =>
    intro i cnt h
    by_cases hm : pageMatches patterns t = true
    · cases t with
      | none => simp [pageMatches] at hm
      | some s =>
        have hs : s.isEmpty = false := by
          cases hh : s.isEmpty with
          | false => rfl
          | true => simp [pageMatches, hh] at hm
        have hany : patterns.any (fun r => searchRA r s) = true := by
          simpa [pageMatches, hs] using hm
        simp only [find_hitsGo, hs, hany]
        simp only [Bool.false_eq_true, if_false, if_true]
        split <;> simp
    · have h2 : rest.any (fun u => pageMatches patterns u) = true := by
        simp only [List.any_cons, Bool.or_eq_true] at h
        rcases h with h | h
        · exact absurd h hm
        · exact h
      cases t with
      | none => simpa [find_hitsGo] using ih (i + 1) cnt h2
      | some s =>
        simp only [find_hitsGo]
        split_ifs with hA hB hC
        · exact ih (i + 1) cnt h2
        · simp
        · simp
        · exact ih (i + 1) cnt h2

theorem find_hits_eq_nil_iff (pages : List (Option String)) (patterns : List (List RAtom))
    (max_hits : Nat) :
    find_hits pages patterns max_hits = [] ↔
      pages.any (fun t => pageMatches patterns t) = false := by
  constructor
  · intro h
    cases hh : pages.any (fun t => pageMatches patterns t) with
    | false => rfl
    | true => exact absurd h (find_hitsGo_ne_nil patterns max_hits pages 1 0 hh)
  · intro h
    refine find_hitsGo_eq_nil patterns max_hits pages 1 0 ?_
    intro t ht
    cases hh : pageMatches patterns t with
    | false => rfl
    | true =>
      exfalso
      have : pages.any (fun u => pageMatches patterns u) = true :=
        List.any_eq_true.mpr ⟨t, ht, hh⟩
      simp [this] at h

theorem gatherEvidence_eq_nil_iff (patterns : List (List RAtom)) (max_hits : Nat)
    (docs_text : List DocText) :
    gatherEvidence patterns max_hits docs_text = [] ↔
      anyDocMatches patterns docs_text = false := by
  unfold gatherEvidence anyDocMatches
  rw [dedupe_evidence_eq_nil_iff, List.flatMap_eq_nil_iff]
  constructor
  · intro h
    cases hh : docs_text.any
        (fun d => (d.2.2.map (fun p => some p)).any (fun t => pageMatches patterns t)) with
    | false => rfl
    | true =>
      exfalso
      obtain ⟨d, hd, hmatch⟩ := List.any_eq_true.mp hh
      have := h d hd
      rw [evidence_from_hits_eq_nil_iff, find_hits_eq_nil_iff] at this
      simp [this] at hmatch
  · intro h d hd
    rw [evidence_from_hits_eq_nil_iff, find_hits_eq_nil_iff]
    cases hh : (d.2.2.map (fun p => some p)).any (fun t => pageMatches patterns t) with
    | false => rfl
    | true =>
      exfalso
      have : docs_text.any
          (fun d => (d.2.2.map (fun p => some p)).any (fun t => pageMatches patterns t)) = true :=
        List.any_eq_true.mpr ⟨d, hd, hh⟩
      simp [this] at h

/-! ## Item-level lemmas -/

theorem s1Item_evidence (fe : List EvidenceRef) (pn : String)
    (h : (s1Item fe pn).status = "EVIDENCE FOUND" ∨ (s1Item fe pn).status = "CONFLICT") :
    (s1Item fe pn).evidence ≠ [] := by
  cases hfe : fe.isEmpty with
  | true => simp [s1Item, hfe] at h
  | false =>
    have hne : fe ≠ [] := by
      intro hnil
      simp [hnil] at hfe
    simp only [s1Item, hfe, Bool.not_false, if_true]
    exact take_ne_nil_of_ne_nil fe 4 hne (by omega)

theorem s2Item_status_conflict_iff (de fe : List EvidenceRef) :
    (s2Item de fe).status = "CONFLICT" ↔ (de ≠ [] ∧ fe ≠ []) := by
  cases hd : de.isEmpty <;> cases hf : fe.isEmpty <;>
    simp_all [s2Item, List.isEmpty_iff]

theorem s2Item_evidence (de fe : List EvidenceRef)
    (h : (s2Item de fe).status = "EVIDENCE FOUND" ∨ (s2Item de fe).status = "CONFLICT") :
    (s2Item de fe).evidence ≠ [] := by
  cases hd : de.isEmpty with
  | true => simp [s2Item, hd] at h
  | false =>
    cases hf : fe.isEmpty with
    | true => simp [s2Item, hd, hf] at h
    | false =>
      have hdne : de ≠ [] := by intro hnil; simp [hnil] at hd
      simp only [s2Item, hd, hf, Bool.not_false, Bool.and_self, if_true]
      refine take_ne_nil_of_ne_nil _ 4 ?_ (by omega)
      intro happ
      rcases List.append_eq_nil.mp happ with ⟨h1, _⟩
      exact take_ne_nil_of_ne_nil de 2 hdne (by omega) h1

theorem s3Item_evidence (se : List EvidenceRef)
    (h : (s3Item se).status = "EVIDENCE FOUND" ∨ (s3Item se).status = "CONFLICT") :
    (s3Item se).evidence ≠ [] := by
  cases hs : se.isEmpty with
  | true => simp [s3Item, hs] at h
  | false =>
    have hne : se ≠ [] := by intro hnil; simp [hnil] at hs
    simp only [s3Item, hs, Bool.not_false, if_true]
    exact take_ne_nil_of_ne_nil se 4 hne (by omega)

theorem s7Item_evidence (ve : List EvidenceRef)
    (h : (s7Item ve).status = "EVIDENCE FOUND" ∨ (s7Item ve).status = "CONFLICT") :
    (s7Item ve).evidence ≠ [] := by
  cases hv : ve.isEmpty with
  | true => simp [s7Item, hv] at h
  | false =>
    have hne : ve ≠ [] := by intro hnil; simp [hnil] at hv
    simp only [s7Item, hv, Bool.not_false, if_true]
    exact take_ne_nil_of_ne_nil ve 4 hne (by omega)

theorem s4Item_id (b : Terms) (be : List EvidenceRef) : (s4Item b be).id = "S4" := by
  unfold s4Item
  split <;> rfl

theorem s5Item_id (nt : Terms) (te ce : List EvidenceRef) : (s5Item nt te ce).id = "S5" := by
  unfold s5Item
  split <;> rfl

theorem s6Item_id (b nt : Terms) (oe ce : List EvidenceRef) : (s6Item b nt oe ce).id = "S6" := by
  unfold s6Item
  split <;> rfl

/-! ## Claim C1 -/

/-- C1 (counterexample): with baseline total 1450.00 and new total 1600.00
both extracted, no rate or P&I increase detected, and P&I unknown on both
sides, the outcome check reports NEEDS CLARIFICATION, not the CONFLICT the
claim requires for the P&I-unknown case. -/
theorem C1_counterexample :
    (s6Item ⟨none, none, none, some (mkRat 1450 1)⟩
        ⟨none, none, none, some (mkRat 1600 1)⟩ [] []).status = "NEEDS CLARIFICATION" ∧
    ¬((s6Item ⟨none, none, none, some (mkRat 1450 1)⟩
        ⟨none, none, none, some (mkRat 1600 1)⟩ [] []).status = "CONFLICT") := by
  constructor
  · decide
  · decide

/-- C1 (amended): in the outcome check, whenever baseline and new total
payments are both extracted, the new total exceeds the baseline total by
more than one cent, and no rate or P&I increase was detected (the conflicts
list is empty), the overall status is NEEDS CLARIFICATION — both when P&I
is known on both sides and did not increase (escrow-driven hypothesis) and
when P&I is unknown on either side (unclear-breakdown message); the
P&I-unknown case is not escalated to CONFLICT. -/
theorem C1_total_increase_needs_clarification (b n : Terms) (oe ce : List EvidenceRef)
    (bt nt : Rat) (hb : b.total = some bt) (hn : n.total = some nt)
    (hinc : ratAdd bt oneCent < nt) (hconf : s6Conflicts b n = []) :
    (s6Item b n oe ce).status = "NEEDS CLARIFICATION" := by
  have hnotins : ((b.rate.isNone && b.pi.isNone && b.total.isNone) ||
      (n.rate.isNone && n.pi.isNone && n.total.isNone)) = false := by
    simp [hb, hn]
  have hpinil : s6PiConflict b n = [] := (List.append_eq_nil.mp hconf).2
  have hneeds : s6TotalNeeds b n ≠ [] := by
    unfold s6TotalNeeds
    rw [hb, hn]
    simp only [if_pos hinc]
    cases hbp : b.pi with
    | none => simp
    | some bp =>
      cases hnp : n.pi with
      | none => simp
      | some np =>
        have hle : np ≤ ratAdd bp oneCent := by
          unfold s6PiConflict at hpinil
          rw [hbp, hnp] at hpinil
          by_contra hgt
          have hlt : ratAdd bp oneCent < np := lt_of_not_le hgt
          simp [hlt] at hpinil
        simp only [if_pos hle]
        simp
  have hneeds2 : s6Needs b n ce ≠ [] := by
    unfold s6Needs
    intro happ
    exact hneeds (List.append_eq_nil.mp happ).1
  have hneedsEmpty : (s6Needs b n ce).isEmpty = false := by
    cases hh : (s6Needs b n ce).isEmpty with
    | false => rfl
    | true => exact absurd (List.isEmpty_iff.mp hh) hneeds2
  have hconfEmpty : (s6Conflicts b n).isEmpty = true := by
    simp [hconf]
  simp [s6Item, hnotins, hconfEmpty, hneedsEmpty]

/-- C1 (witness): the amended theorem at the spec's own outcome-comparator
test vector (baseline rate 3.25, P&I 1200.00, total 1450.00; new rate 3.25,
P&I 1200.00, total 1600.00; no capitalization evidence). -/
theorem C1_witness :
    (s6Item ⟨some (mkRat 13 4), some (mkRat 1200 1), none, some (mkRat 1450 1)⟩
        ⟨some (mkRat 13 4), some (mkRat 1200 1), none, some (mkRat 1600 1)⟩ [] []).status
      = "NEEDS CLARIFICATION" :=
  C1_total_increase_needs_clarification _ _ [] [] (mkRat 1450 1) (mkRat 1600 1)
    rfl rfl (by decide) (by decide)

/-! ## Claim C2 -/

/-- C2 (counterexample): the baseline extraction produced a field (a rate),
yet because the new-terms side produced none of rate/P&I/total, the outcome
check still takes the insufficient-data branch — the claim's "exactly when
neither side produced any field" is too strong (the code ORs the two
sides). -/
theorem C2_counterexample :
    (s6Item ⟨some (mkRat 13 4), none, none, none⟩ ⟨none, none, none, none⟩ [] []).request_next
        = s6InsufficientRequests ∧
    (s6Item ⟨some (mkRat 13 4), none, none, none⟩ ⟨none, none, none, none⟩ [] []).what_we_found
        = "We do not have enough extracted baseline and/or modification term data to run a reliable outcome comparison." := by
  constructor
  · rfl
  · rfl

/-- C2 (amended): the outcome check takes the insufficient-data branch
(recognizable by its fixed request list) exactly when the baseline produced
none of rate/P&I/total OR the new terms produced none of rate/P&I/total
(an extracted escrow value alone does not count); in particular, when both
sides are entirely empty the status is NEEDS CLARIFICATION, never
CONFLICT. -/
theorem C2_insufficient_branch_iff (b n : Terms) (oe ce : List EvidenceRef) :
    ((s6Item b n oe ce).request_next = s6InsufficientRequests ↔
      ((b.rate = none ∧ b.pi = none ∧ b.total = none) ∨
       (n.rate = none ∧ n.pi = none ∧ n.total = none))) ∧
    ((b.rate = none ∧ b.pi = none ∧ b.total = none) ∧
     (n.rate = none ∧ n.pi = none ∧ n.total = none) →
      (s6Item b n oe ce).status = "NEEDS CLARIFICATION" ∧
      ¬((s6Item b n oe ce).status = "CONFLICT")) := by
  cases hcond : ((b.rate.isNone && b.pi.isNone && b.total.isNone) ||
      (n.rate.isNone && n.pi.isNone && n.total.isNone)) with
  | true =>
    have hrhs : (b.rate = none ∧ b.pi = none ∧ b.total = none) ∨
        (n.rate = none ∧ n.pi = none ∧ n.total = none) := by
      simpa [Option.isNone_iff_eq_none, and_assoc] using hcond
    refine ⟨?_, ?_⟩
    · simp [s6Item, hcond, hrhs]
    · intro _
      constructor
      · simp [s6Item, hcond]
      · simp [s6Item, hcond]
  | false =>
    have hrhs : ¬((b.rate = none ∧ b.pi = none ∧ b.total = none) ∨
        (n.rate = none ∧ n.pi = none ∧ n.total = none)) := by
      intro hr
      have hT : ((b.rate.isNone && b.pi.isNone && b.total.isNone) ||
          (n.rate.isNone && n.pi.isNone && n.total.isNone)) = true := by
        rcases hr with ⟨h1, h2, h3⟩ | ⟨h1, h2, h3⟩ <;> simp [h1, h2, h3]
      simp [hT] at hcond
    refine ⟨?_, ?_⟩
    · constructor
      · intro hreq
        exfalso
        have hgen : ∀ c : Bool, (if c = true then s6CompareRequests else [])
            ≠ s6InsufficientRequests := by
          intro c
          cases c <;> decide
        revert hreq
        simp only [s6Item, hcond]
        simp only [Bool.false_eq_true, if_false]
        exact fun hreq => hgen _ hreq
      · intro hr
        exact absurd hr hrhs
    · intro hboth
      exact absurd (Or.inl hboth.1) hrhs

/-- C2 (witness): the amended theorem at the entirely-empty extraction pair
— the insufficient-data request list is emitted and the status is NEEDS
CLARIFICATION. -/
theorem C2_witness :
    (s6Item ⟨none, none, none, none⟩ ⟨none, none, none, none⟩ [] []).request_next
        = s6InsufficientRequests ∧
    (s6Item ⟨none, none, none, none⟩ ⟨none, none, none, none⟩ [] []).status
        = "NEEDS CLARIFICATION" :=
  ⟨(C2_insufficient_branch_iff ⟨none, none, none, none⟩ ⟨none, none, none, none⟩ [] []).1.mpr
      (Or.inl ⟨rfl, rfl, rfl⟩),
   ((C2_insufficient_branch_iff ⟨none, none, none, none⟩ ⟨none, none, none, none⟩ [] []).2
      ⟨⟨rfl, rfl, rfl⟩, ⟨rfl, rfl, rfl⟩⟩).1⟩

/-! ## Claim C3 -/

/-- C3 (counterexample): a run on an empty upload still emits all seven
score items, every one of them with an empty evidence list — the engine
does emit items whose rule found nothing, with empty evidence. -/
theorem C3_counterexample :
    ((build_scorecard [] ⟨2020, 1, 1⟩ ⟨2025, 7, 31⟩).1.all
        (fun it => it.evidence.isEmpty)) = true ∧
    (build_scorecard [] ⟨2020, 1, 1⟩ ⟨2025, 7, 31⟩).1 ≠ [] := by
  constructor
  · decide
  · decide

/-- C3 (amended): every run emits exactly the seven fixed items S1..S7;
among the purely keyword-driven checks (S1, S2, S3, S7), an item whose
status reports found evidence (EVIDENCE FOUND or CONFLICT) always carries a
non-empty evidence list; but absence-branch items (MISSING and the
no-signal NEEDS CLARIFICATION branches) are still emitted, with empty
evidence. -/
theorem C3_keyword_items_evidence (docs_text : List DocText) (s e : Date) :
    ((build_scorecard docs_text s e).1.length = 7) ∧
    (∀ it ∈ (build_scorecard docs_text s e).1,
      (it.id = "S1" ∨ it.id = "S2" ∨ it.id = "S3" ∨ it.id = "S7") →
      (it.status = "EVIDENCE FOUND" ∨ it.status = "CONFLICT") →
      it.evidence ≠ []) := by
  constructor
  · rfl
  · intro it hit hid hstat
    simp only [build_scorecard, scorecardItems, List.mem_cons, List.not_mem_nil,
      or_false] at hit
    rcases hit with h | h | h | h | h | h | h
    · subst h; exact s1Item_evidence _ _ hstat
    · subst h; exact s2Item_evidence _ _ hstat
    · subst h; exact s3Item_evidence _ hstat
    · subst h
      rw [s4Item_id] at hid
      rcases hid with h2 | h2 | h2 | h2 <;> exact absurd h2 (by decide)
    · subst h
      rw [s5Item_id] at hid
      rcases hid with h2 | h2 | h2 | h2 <;> exact absurd h2 (by decide)
    · subst h
      rw [s6Item_id] at hid
      rcases hid with h2 | h2 | h2 | h2 <;> exact absurd h2 (by decide)
    · subst h; exact s7Item_evidence _ hstat

/-- C3 (witness): on an upload whose single document mentions COVID
forbearance, the first emitted item is the S1 EVIDENCE FOUND item and the
amended theorem yields its non-empty evidence list. -/
theorem C3_witness :
    ((build_scorecard [("doc1.pdf", "OTHER", ["The COVID forbearance plan was approved."])]
        ⟨2020, 1, 1⟩ ⟨2025, 7, 31⟩).1.headI.id = "S1") ∧
    ((build_scorecard [("doc1.pdf", "OTHER", ["The COVID forbearance plan was approved."])]
        ⟨2020, 1, 1⟩ ⟨2025, 7, 31⟩).1.headI.evidence ≠ []) := by
  refine ⟨by decide, ?_⟩
  exact (C3_keyword_items_evidence
      [("doc1.pdf", "OTHER", ["The COVID forbearance plan was approved."])]
      ⟨2020, 1, 1⟩ ⟨2025, 7, 31⟩).2 _ (List.mem_cons_self _ _) (by decide) (by decide)

/-! ## Claim C4 -/

/-- C4 (counterexample): the relief-recognition conflict (the S2 item, at
index 1 of the emitted list) fires on an upload in which no single document
contains both keyword families — one document carries only the
forbearance/COVID family and the other only the delinquency family. -/
theorem C4_counterexample :
    (((build_scorecard
        [("a.pdf", "OTHER", ["The COVID forbearance plan was approved."]),
         ("b.pdf", "OTHER", ["A past due balance was reported."])]
        ⟨2020, 1, 1⟩ ⟨2025, 7, 31⟩).1[1]?).map ScoreItem.status = some "CONFLICT") ∧
    (([("a.pdf", "OTHER", ["The COVID forbearance plan was approved."]),
       ("b.pdf", "OTHER", ["A past due balance was reported."])] : List DocText).all
      (fun d =>
        !((d.2.2.map (fun p => some p)).any (fun t => pageMatches forbPatterns t) &&
          (d.2.2.map (fun p => some p)).any (fun t => pageMatches delinPatterns t)))) = true := by
  constructor
  · decide
  · decide

/-- C4 (amended): for every run, the S2 item (index 1 of the emitted list)
has status CONFLICT if and only if some document of the upload has a
non-empty page matching a forbearance/COVID-family pattern AND some —
possibly different — document has a non-empty page matching a
delinquency-family pattern; the evidence buckets are pooled across the
whole upload, not per document. -/
theorem C4_s2_conflict_iff (docs_text : List DocText) (s e : Date) :
    (((build_scorecard docs_text s e).1[1]?).map ScoreItem.status = some "CONFLICT") ↔
      (anyDocMatches forbPatterns docs_text = true ∧
       anyDocMatches delinPatterns docs_text = true) := by
  have hgot : (build_scorecard docs_text s e).1[1]? =
      some (s2Item (gatherEvidence delinPatterns 2 docs_text)
        (gatherEvidence forbPatterns 2 docs_text)) := rfl
  rw [hgot]
  simp only [Option.map_some']
  rw [Option.some_inj]
  rw [s2Item_status_conflict_iff]
  constructor
  · rintro ⟨hd, hf⟩
    constructor
    · cases hh : anyDocMatches forbPatterns docs_text with
      | true => rfl
      | false => exact absurd ((gatherEvidence_eq_nil_iff _ _ _).mpr hh) hf
    · cases hh : anyDocMatches delinPatterns docs_text with
      | true => rfl
      | false => exact absurd ((gatherEvidence_eq_nil_iff _ _ _).mpr hh) hd
  · rintro ⟨hf, hd⟩
    constructor
    · intro hnil
      rw [gatherEvidence_eq_nil_iff] at hnil
      simp [hnil] at hd
    · intro hnil
      rw [gatherEvidence_eq_nil_iff] at hnil
      simp [hnil] at hf

/-! ## Claim C5 -/

/-- A page on which the only pattern match sits beyond the 240-character
quote window (130 copies of `ab ` followed by `suspense`). -/
def c5LongPage : String := String.join (List.replicate 130 "ab ") ++ "suspense"

/-- C5 (counterexample): `find_hits` matches this page on its final word,
yet the returned snippet is the truncated whole-page quote and does not
even contain the matched word — it is not a window around the first
occurrence of the matching pattern (any such window, roughly 120 characters
before to 260 after the match, would contain it). -/
theorem C5_counterexample :
    find_hits [some c5LongPage] [[.lit "suspense"]] 3 = [(1, short_quote c5LongPage 240)] ∧
    strContains (short_quote c5LongPage 240) "suspense" = false ∧
    strContains (normalize_space c5LongPage) "suspense" = true := by
  refine ⟨?_, ?_, ?_⟩
  · decide
  · decide
  · decide

/-- C5 (amended): for every matching page, the snippet returned by
`find_hits` is the page's entire text, whitespace-collapsed and truncated
to 240 characters with an ellipsis marker when longer — no window around
the match position is taken. -/
theorem C5_snippet_is_whole_page (pages : List (Option String))
    (patterns : List (List RAtom)) (max_hits : Nat) (p : Nat) (q : String)
    (h : (p, q) ∈ find_hits pages patterns max_hits) :
    ∃ s, pages[p - 1]? = some (some s) ∧ s.isEmpty = false ∧ q = short_quote s 240 := by
  obtain ⟨j, s, hj, hs, hm, hp, hq⟩ := find_hitsGo_mem patterns max_hits pages 1 0 p q h
  refine ⟨s, ?_, hs, hq⟩
  rw [hp]
  simpa using hj

/-- C5 (witness): the amended theorem applied to a concrete single-page
match. -/
theorem C5_witness :
    ∃ s, ([some "hello suspense"] : List (Option String))[(1 : Nat) - 1]? = some (some s) ∧
      s.isEmpty = false ∧ "hello suspense" = short_quote s 240 :=
  C5_snippet_is_whole_page [some "hello suspense"] [[.lit "suspense"]] 3 1 "hello suspense"
    (by decide)

/-! ## Claim C6 -/

/-- C6 (code evaluation at the failing input): a text containing only the
unlabeled rate `3.25% ` yields no rate at all.  `parse_rate`'s regex ends
in `\b` after the `%`; since `%` is a non-word character, that boundary
only matches when a word character immediately follows the percent sign,
so the fallback never fires on a rate followed by a space, punctuation or
the end of the text — contradicting the claimed fallback and the
function's own comment ("Look for rates like 3.25% / 6.500%").  The same
regex does match when a word character follows the `%`. -/
theorem C6_rate_fallback_code_bug :
    (extract_terms_from_pages ["3.25% "]).rate = none ∧
    parse_rate "3.25% " = none ∧
    parse_rate "rate 3.25%x" = some (mkRat 13 4) := by
  refine ⟨?_, ?_, ?_⟩
  · decide
  · decide
  · decide

/-! ## Claim C7 -/

/-- C7: `classify_doc` is total (it always returns one of the five
categories; determinism is immediate since it is a function), inspects only
the first ten pages, gives the modification keyword group priority over
every other group (so a document containing both modification and billing
keywords classifies MODIFICATION), classifies ESCROW only when both
`escrow` and `analysis` occur, and returns OTHER exactly when no group
matches. -/
theorem C7_classify_total_priority (pages : List String) :
    (classify_doc pages = "MODIFICATION" ∨ classify_doc pages = "PAYMENT_HISTORY" ∨
     classify_doc pages = "ESCROW" ∨ classify_doc pages = "BILLING" ∨
     classify_doc pages = "OTHER") ∧
    classify_doc pages = classify_doc (pages.take 10) ∧
    (modKeywords.any (fun k => strContains (classifyBlob pages) k) = true →
      classify_doc pages = "MODIFICATION") ∧
    (classify_doc pages = "ESCROW" →
      strContains (classifyBlob pages) "escrow" = true ∧
      strContains (classifyBlob pages) "analysis" = true) ∧
    (modKeywords.any (fun k => strContains (classifyBlob pages) k) = false →
     payHistKeywords.any (fun k => strContains (classifyBlob pages) k) = false →
     (strContains (classifyBlob pages) "escrow" &&
       strContains (classifyBlob pages) "analysis") = false →
     billingKeywords.any (fun k => strContains (classifyBlob pages) k) = false →
     classify_doc pages = "OTHER") := by
  refine ⟨?_, ?_, ?_, ?_, ?_⟩
  · simp only [classify_doc]
    split_ifs <;> simp
  · simp only [classify_doc, classifyBlob, List.take_take, Nat.min_self]
  · intro h
    simp [classify_doc, h]
  · intro h
    simp only [classify_doc] at h
    split_ifs at h with h1 h2 h3 h4
    · exact absurd h (by decide)
    · exact absurd h (by decide)
    · simpa [Bool.and_eq_true] using h3
    · exact absurd h (by decide)
    · exact absurd h (by decide)
  · intro h1 h2 h3 h4
    simp [classify_doc, h1, h2, h3, h4]

/-- C7 (witness): a document carrying both modification and billing
keywords classifies MODIFICATION. -/
theorem C7_witness :
    classify_doc ["Loan Modification Agreement", "billing statement, amount due"]
      = "MODIFICATION" :=
  (C7_classify_total_priority
      ["Loan Modification Agreement", "billing statement, amount due"]).2.2.1 (by decide)

/-! ## Claim C8 -/

/-- C8: for every page sequence, pattern list and `max_hits ≥ 1`,
`find_hits` returns at most `max_hits` entries; every returned entry points
at a page that exists and whose text is neither `None` nor empty; and when
no (non-empty) page matches any pattern the result is the empty list.  The
embedding is a total function, so no input can raise. -/
theorem C8_find_hits_safety (pages : List (Option String)) (patterns : List (List RAtom))
    (max_hits : Nat) (hmax : 1 ≤ max_hits) :
    (find_hits pages patterns max_hits).length ≤ max_hits ∧
    (∀ pr ∈ find_hits pages patterns max_hits,
      ∃ s, pages[pr.1 - 1]? = some (some s) ∧ s.isEmpty = false) ∧
    (pages.any (fun t => pageMatches patterns t) = false →
      find_hits pages patterns max_hits = []) := by
  refine ⟨?_, ?_, ?_⟩
  · have h := find_hitsGo_length patterns max_hits pages 1 0 (by omega)
    unfold find_hits
    omega
  · intro pr hpr
    obtain ⟨j, s, hj, hs, hm, hp, hq⟩ :=
      find_hitsGo_mem patterns max_hits pages 1 0 pr.1 pr.2 (by simpa using hpr)
    refine ⟨s, ?_, hs⟩
    rw [hp]
    simpa using hj
  · intro h
    exact (find_hits_eq_nil_iff pages patterns max_hits).mpr h

/-- C8 (witness): the bound and the empty-result case at concrete inputs
(a `None` page, an empty page, and one matching page, with `max_hits = 1`). -/
theorem C8_witness :
    (find_hits [none, some "", some "a late fee was charged"] delinPatterns 1).length ≤ 1 ∧
    find_hits [none, some ""] delinPatterns 1 = [] :=
  ⟨(C8_find_hits_safety [none, some "", some "a late fee was charged"] delinPatterns 1
      (by decide)).1,
   (C8_find_hits_safety [none, some ""] delinPatterns 1 (by decide)).2.2 (by decide)⟩

/-! ## Claim C9 -/

/-- C9 (counterexample): applied to an empty document list,
`build_scorecard` does not return an empty list of score items — it emits
the full seven-item scorecard. -/
theorem C9_counterexample :
    (build_scorecard [] ⟨2020, 1, 1⟩ ⟨2025, 7, 31⟩).1.length = 7 ∧
    ¬((build_scorecard [] ⟨2020, 1, 1⟩ ⟨2025, 7, 31⟩).1 = []) := by
  constructor
  · decide
  · decide

/-- C9 (amended): on an empty document list the engine still emits exactly
one item per fixed check S1..S7 — statuses MISSING or NEEDS CLARIFICATION
only (never EVIDENCE FOUND or CONFLICT), every evidence list empty — for
any declared forbearance window. -/
theorem C9_empty_docs_items (s e : Date) :
    ((build_scorecard [] s e).1.map (fun it => (it.id, it.status, it.evidence))) =
      [("S1", "MISSING", []), ("S2", "NEEDS CLARIFICATION", []),
       ("S3", "NEEDS CLARIFICATION", []), ("S4", "MISSING", []),
       ("S5", "MISSING", []), ("S6", "NEEDS CLARIFICATION", []),
       ("S7", "MISSING", [])] := rfl

/-! ## Claim C10 -/

/-- C10: the declared forbearance start date never influences the
scorecard, and the end date influences it only through whether it falls on
or after the CARES effective date (2020-03-27): any two runs on the same
documents whose end dates agree on that comparison — the start dates may
differ arbitrarily — produce identical output. -/
theorem C10_forb_start_irrelevant (docs_text : List DocText) (s1 s2 e1 e2 : Date)
    (h : Date.ble CARES_EFFECTIVE e1 = Date.ble CARES_EFFECTIVE e2) :
    build_scorecard docs_text s1 e1 = build_scorecard docs_text s2 e2 := by
  have hpb : policy_blurb s1 e1 = policy_blurb s2 e2 := by
    unfold policy_blurb
    rw [h]
  simp only [build_scorecard, hpb]

/-- C10 (witness): two runs with entirely different declared windows whose
end dates are both on or after the CARES effective date coincide. -/
theorem C10_witness :
    build_scorecard [] ⟨2020, 1, 1⟩ ⟨2025, 7, 31⟩ =
      build_scorecard [] ⟨2021, 5, 5⟩ ⟨2026, 1, 2⟩ :=
  C10_forb_start_irrelevant [] ⟨2020, 1, 1⟩ ⟨2021, 5, 5⟩ ⟨2025, 7, 31⟩ ⟨2026, 1, 2⟩ (by decide)
